import Mathlib

/-!
# Verification of the JyotishTherapist serverless backend

Shallow embedding of `src/functions/astrology.js` (version 4.0.8, the final
revision in the file: `getAccessToken` at lines 407-438 and the exported
`handler` at lines 440-519), together with theorems settling the claims
about it.

JavaScript values flowing through the handler are modelled by the inductive
type `Json` below (numbers are modelled as integers — no claim involves
fractional values or NaN). `undef` models JavaScript `undefined`, which is
distinct from JSON `null`: reading an absent object property yields `undef`.
Fallible JavaScript steps (thrown exceptions) are modelled with
`Except String`, the error being the thrown `Error`'s message string.
-/

/-- A JavaScript value as it appears in this program: the results of
`JSON.parse`, plus `undefined` which arises from reading absent properties. -/
inductive Json where
  | undef
  | null
  | bool (b : Bool)
  | num (n : Int)
  | str (s : String)
  | arr (elems : List Json)
  | obj (fields : List (String × Json))
deriving Repr

/-- JavaScript truthiness of a value (`if (x)`): `undefined`, `null`, `false`,
`0` and the empty string are falsy; arrays and objects are always truthy. -/
def jsTruthy : Json → Bool
  | .undef => false
  | .null => false
  | .bool b => b
  | .num n => n != 0
  | .str s => s != ""
  | .arr _ => true
  | .obj _ => true

/-- Truthiness of a JavaScript variable that is either a string or absent
(`undefined`/`null`): used for `process.env` reads and `event.rawQuery`. -/
def jsTruthyOptStr : Option String → Bool
  | none => false
  | some s => s != ""

/-- First binding of a key in an object's field list (JS property lookup);
an absent key reads as `undefined`. -/
def findField : List (String × Json) → String → Json
  | [], _ => .undef
  | (k', v) :: rest, k => if k' = k then v else findField rest k

/-- JS property assignment on an object's field list: an existing key is
updated in place (insertion order kept), a new key is appended at the end —
matching the key order `JSON.stringify` later serializes. -/
def setFieldList : List (String × Json) → String → Json → List (String × Json)
  | [], k, v => [(k, v)]
  | (k', v') :: rest, k, v =>
    if k' = k then (k, v) :: rest else (k', v') :: setFieldList rest k v

/-- JS property read `target[k]`: throws a TypeError on `null`/`undefined`,
looks up the key on objects, and yields `undefined` on primitives and arrays
(for the non-index keys this program reads). The real TypeError message quotes
the key name; the quotes are omitted here. -/
def jsRead (target : Json) (k : String) : Except String Json :=
  match target with
  | .null => .error ("Cannot read properties of null (reading " ++ k ++ ")")
  | .undef => .error ("Cannot read properties of undefined (reading " ++ k ++ ")")
  | .obj fs => .ok (findField fs k)
  | _ => Except.ok Json.undef

/-- JS property write `target[k] = v`: throws a TypeError on `null`/
`undefined`, updates objects, and is a silent no-op on primitives (non-strict
mode discards the boxed write) and arrays (a non-index property on an array is
invisible to `JSON.stringify`, so the serialized observables are unchanged). -/
def jsSetProp (target : Json) (k : String) (v : Json) : Except String Json :=
  match target with
  | .null => .error ("Cannot set properties of null (setting " ++ k ++ ")")
  | .undef => .error ("Cannot set properties of undefined (setting " ++ k ++ ")")
  | .obj fs => .ok (.obj (setFieldList fs k v))
  | other => .ok other

/-- Does `pat` occur at the start of `l`? (helper for substring search). -/
def charsStartWith : List Char → List Char → Bool
  | _, [] => true
  | [], _ :: _ => false
  | a :: l, b :: p => a == b && charsStartWith l p

/-- Does `pat` occur anywhere in `l`? (helper for substring search). -/
def charsContain : List Char → List Char → Bool
  | _, [] => true
  | [], _ :: _ => false
  | a :: l, p => charsStartWith (a :: l) p || charsContain l p

/-- Substring test on strings, used to state what a produced message does or
does not carry. -/
def strContains (s pat : String) : Bool :=
  charsContain s.data pat.data

mutual

/-- `String(x)`: the JS string conversion applied by `new Error(x)` when a
non-string reaches it. Array conversion joins element conversions with commas,
`null`/`undefined` elements becoming empty (Array.prototype.toString). -/
def jsToString : Json → String
  | .undef => "undefined"
  | .null => "null"
  | .bool true => "true"
  | .bool false => "false"
  | .num n => toString n
  | .str s => s
  | .arr xs => jsArrJoin xs
  | .obj _ => "[object Object]"

/-- Comma-join of array elements for `jsToString` (Array.prototype.join). -/
def jsArrJoin : List Json → String
  | [] => ""
  | j :: rest =>
    let s := match j with
      | .null => ""
      | .undef => ""
      | _ => jsToString j
    match rest with
    | [] => s
    | _ => s ++ "," ++ jsArrJoin rest
end

/-! ## AccessTokenCache (`getAccessToken`, astrology.js lines 407-438) -/

/-- The module-level token cache `cachedToken` (lines 394-397): `accessToken`
starts as `null` (modelled `none`), `expiresAt` is epoch milliseconds. -/
structure CachedToken where
  accessToken : Option String
  expiresAt : Int
deriving Repr, DecidableEq

/-- The outcome the token endpoint would deliver if called: `ok` is
`response.ok`; `access_token` and `expires_in` are the typed fields the code
reads from the parsed body on success; `rawBody` is the whole parsed body
`data` (used only for logging on failure). -/
structure TokenExchange where
  ok : Bool
  access_token : String
  expires_in : Int
  rawBody : Json
deriving Repr

/-- The fixed message thrown on a failed token exchange (line 430). -/
def AUTH_FAIL_MSG : String :=
  "Could not authenticate with ProKerala. Check API credentials."

/-- `getAccessToken` (lines 407-438). Inputs: the current cache, the clock
(`Date.now()`, read once — the two reads in the source are microseconds apart
and no claim distinguishes them), and the exchange outcome. Output:
(result, cache afterwards, whether the token-exchange network call was made).
The guard at line 408 is `cachedToken.accessToken && cachedToken.expiresAt >
Date.now() + 300 * 1000`. -/
def getAccessToken (cache : CachedToken) (now : Int) (exch : TokenExchange) :
    Except String String × CachedToken × Bool :=
  if jsTruthyOptStr cache.accessToken = true ∧ cache.expiresAt > now + 300 * 1000 then
    (.ok (cache.accessToken.getD ""), cache, false)
  else if exch.ok then
    (.ok exch.access_token,
     { accessToken := some exch.access_token,
       expiresAt := now + exch.expires_in * 1000 },
     true)
  else
    (.error AUTH_FAIL_MSG, cache, true)

/-! ## Fan-out responses and `processResponse` (lines 475-498) -/

/-- An HTTP response as the handler observes it: `ok` and `status` from the
response object, `text` the raw body (`res.text()`), and `json` the result of
parsing that body (`JSON.parse(text)` / `res.json()`): `none` when the body is
not valid JSON (the parse throws). `JSON.parse` never yields `undefined`. -/
structure HttpResponse where
  ok : Bool
  status : Nat
  text : String
  json : Option Json
deriving Repr

/-- Optional chain index `x?.[0]`: `null`/`undefined` short-circuit to
`undefined`; an array yields its head (or `undefined` when empty); a string
yields its first character as a one-character string; an object looks up the
property named "0"; other primitives yield `undefined`. -/
def jsOptIndex0 : Json → Json
  | .null => .undef
  | .undef => .undef
  | .arr [] => .undef
  | .arr (x :: _) => x
  | .str s => match s.data with
    | [] => .undef
    | c :: _ => .str (String.mk [c])
  | .obj fs => findField fs "0"
  | _ => Json.undef

/-- Optional chain property access `x?.k`: `null`/`undefined` short-circuit to
`undefined`; objects look the key up; primitives and arrays yield `undefined`
for the keys this program reads. -/
def jsOptProp (j : Json) (k : String) : Json :=
  match j with
  | .null => .undef
  | .undef => .undef
  | .obj fs => findField fs k
  | _ => Json.undef

/-- The message of the error `processResponse` throws for a non-ok response
`res` named `name` (lines 483-491): if the body is not JSON, a synthesized
message with the status and raw text; if the parsed body is `null`, the
unguarded read `errorJson.errors` throws a TypeError; otherwise
`errorJson.errors?.[0]?.detail || fallback` — the upstream detail when truthy
(note: the endpoint name is NOT part of it), else an unknown-error fallback. -/
def upstreamFailMsg (res : HttpResponse) (name : String) : String :=
  match res.json with
  | none => name ++ " API request failed with status " ++ toString res.status ++ ": " ++ res.text
  | some .null => "Cannot read properties of null (reading errors)"
  | some errorJson =>
    let errors := findField (match errorJson with | .obj fs => fs | _ => []) "errors"
    let elem0 := jsOptIndex0 errors
    let detail := jsOptProp elem0 "detail"
    if jsTruthy detail then jsToString detail
    else "Unknown " ++ name ++ " API error."

/-- `processResponse(res, name)` (lines 482-494): for an ok response, return
the parsed body (`res.json()`; an unparseable body makes that call throw a
SyntaxError — the exact SyntaxError text varies by engine, a fixed stand-in is
used). For a non-ok response, throw the error described by
`upstreamFailMsg`. -/
def processResponse (res : HttpResponse) (name : String) : Except String Json :=
  if res.ok then
    match res.json with
    | some j => .ok j
    | none => .error "Unexpected token in JSON"
  else
    .error (upstreamFailMsg res name)

/-- The body of the `try` block after `Promise.all` (lines 496-510): process
the three responses sequentially (kundli, dasha, planet position — the first
throw wins), then graft `ascendant` and `planets` (renamed
`planet_positions`) from the planet-position payload into `kundliData.data`
when `planetPositionData.data` is truthy, and build the success object
`{kundliData, dashaData}`. The in-place mutation of the object at
`kundliData.data` is modelled by writing the updated value back. -/
def mergeResults (kres dres pres : HttpResponse) : Except String Json := do
  let kundliData ← processResponse kres "Kundli"
  let dashaData ← processResponse dres "Dasha"
  let planetPositionData ← processResponse pres "Planet Position"
  let pd ← jsRead planetPositionData "data"
  if jsTruthy pd then
    let kd ← jsRead kundliData "data"
    let asc ← jsRead pd "ascendant"
    let kd1 ← jsSetProp kd "ascendant" asc
    let planets ← jsRead pd "planets"
    let kd2 ← jsSetProp kd1 "planet_positions" planets
    let kundliData1 ← jsSetProp kundliData "data" kd2
    pure (Json.obj [("kundliData", kundliData1), ("dashaData", dashaData)])
  else
    pure (Json.obj [("kundliData", kundliData), ("dashaData", dashaData)])

/-! ## RequestHandler (`exports.handler`, lines 440-519) -/

/-- The two environment secrets (`process.env.PROKERALA_CLIENT_ID` /
`PROKERALA_CLIENT_SECRET`); `none` models an unset variable. -/
structure Env where
  clientId : Option String
  clientSecret : Option String
deriving Repr, DecidableEq

/-- The inbound event; the v4.0.8 handler reads only `event.rawQuery`. -/
structure Event where
  rawQuery : Option String
deriving Repr, DecidableEq

/-- An error body `{error: message}` as serialized on every failure path. -/
def errBody (m : String) : Json := .obj [("error", .str m)]

/-- Kundli endpoint URL for a forwarded query string (line 469). -/
def kundliUrl (q : String) : String :=
  "https://api.prokerala.com/v2/astrology/kundli?" ++ q

/-- Dasha-periods endpoint URL for a forwarded query string (line 470). -/
def dashaUrl (q : String) : String :=
  "https://api.prokerala.com/v2/astrology/dasha-periods?" ++ q

/-- Natal-planet-position endpoint URL for a forwarded query string
(line 471). -/
def planetPositionUrl (q : String) : String :=
  "https://api.prokerala.com/v2/astrology/natal-planet-position?" ++ q

/-- What one inbound request observably produces: the response envelope
(`statusCode` and the object passed to `JSON.stringify` as the body), whether
the token-exchange call was made, whether the three upstream fetches were
issued and at which URLs, and the token cache after the request. -/
structure HandlerOutput where
  statusCode : Nat
  body : Json
  exchangeCalled : Bool
  fetchCalled : Bool
  requestedUrls : List String
  cacheAfter : CachedToken
deriving Repr

/-- The fetch outcome of one endpoint: `Except.error m` models a
transport-level rejection of the `fetch` promise (unreachable host, ...),
whose message `m` reaches `Promise.all`; `Except.ok` a settled HTTP response
(any status). -/
abbrev FetchOutcome := Except String HttpResponse

/-- `exports.handler` (lines 440-519) over an explicit world: environment,
event, token-cache state and clock, the would-be token-exchange outcome, and
the three endpoints' fetch outcomes. `Promise.all` (line 475) rejects as soon
as any fetch rejects; with the three settling deterministically here, the
first rejection in declaration order is taken. Every thrown error is caught at
line 512 and mapped to a 500 envelope with the error's message. -/
def handler (env : Env) (ev : Event) (cache : CachedToken) (now : Int)
    (exch : TokenExchange) (kf df pf : FetchOutcome) : HandlerOutput :=
  if jsTruthyOptStr env.clientId = false ∨ jsTruthyOptStr env.clientSecret = false then
    ⟨500, errBody "API credentials are not set up in the serverless environment.",
     false, false, [], cache⟩
  else if jsTruthyOptStr ev.rawQuery = false then
    ⟨400, errBody "Missing required query parameters.", false, false, [], cache⟩
  else
    let q := ev.rawQuery.getD ""
    match getAccessToken cache now exch with
    | (.error m, cache1, called) => ⟨500, errBody m, called, false, [], cache1⟩
    | (.ok _, cache1, called) =>
      let urls := [kundliUrl q, dashaUrl q, planetPositionUrl q]
      match kf, df, pf with
      | .error m, _, _ => ⟨500, errBody m, called, true, urls, cache1⟩
      | .ok _, .error m, _ => ⟨500, errBody m, called, true, urls, cache1⟩
      | .ok _, .ok _, .error m => ⟨500, errBody m, called, true, urls, cache1⟩
      | .ok kres, .ok dres, .ok pres =>
        match mergeResults kres dres pres with
        | .error m => ⟨500, errBody m, called, true, urls, cache1⟩
        | .ok merged => ⟨200, merged, called, true, urls, cache1⟩

/-! ## Response-envelope shape predicates -/

/-- A success body: exactly the two keys `kundliData` and `dashaData`, both
with defined (non-`undefined`) values, so `JSON.stringify` keeps both. -/
def isResultBody (j : Json) : Prop :=
  ∃ kD dD, j = Json.obj [("kundliData", kD), ("dashaData", dD)]
    ∧ kD ≠ Json.undef ∧ dD ≠ Json.undef

/-- An error body: exactly one key `error` holding a string. -/
def isErrorBody (j : Json) : Prop :=
  ∃ m, j = Json.obj [("error", Json.str m)]

/-- The envelope invariant of one handler response: an allowed status code,
and a body that is a result or an error — never both, never neither. -/
def envelopeOK (out : HandlerOutput) : Prop :=
  (out.statusCode = 200 ∨ out.statusCode = 400 ∨ out.statusCode = 500)
  ∧ ((isResultBody out.body ∧ ¬ isErrorBody out.body)
     ∨ (isErrorBody out.body ∧ ¬ isResultBody out.body))

/-- A fetch outcome whose response body, when it parses, is a value
`JSON.parse` can actually produce (`undefined` is not one). -/
def respWF : FetchOutcome → Bool
  | .error _ => true
  | .ok r =>
    match r.json with
    | some .undef => false
    | _ => true

lemma respWF_ok {r : HttpResponse} (h : respWF (.ok r) = true) :
    r.json ≠ some Json.undef := by
  intro hj
  simp [respWF, hj] at h

lemma envelopeOK_errBody {c : Nat} (hc : c = 400 ∨ c = 500) (m : String)
    (x1 x2 : Bool) (x3 : List String) (x4 : CachedToken) :
    envelopeOK ⟨c, errBody m, x1, x2, x3, x4⟩ := by
  refine ⟨by rcases hc with h | h <;> simp [h], Or.inr ⟨⟨m, rfl⟩, ?_⟩⟩
  rintro ⟨kD, dD, h, -, -⟩
  simp [errBody] at h

/-! ## Lemmas about `processResponse` and `mergeResults` -/

lemma processResponse_ok_of (res : HttpResponse) (name : String) (j : Json)
    (hok : res.ok = true) (hj : res.json = some j) :
    processResponse res name = .ok j := by
  simp [processResponse, hok, hj]

lemma processResponse_err_of (res : HttpResponse) (name : String)
    (hok : res.ok = false) :
    processResponse res name = .error (upstreamFailMsg res name) := by
  simp [processResponse, hok]

lemma processResponse_ok_inv {res : HttpResponse} {name : String} {j : Json}
    (h : processResponse res name = .ok j) : res.json = some j := by
  unfold processResponse at h
  split at h
  · split at h
    · injection h with h
      subst h
      assumption
    · exact absurd h (by simp)
  · exact absurd h (by simp)

lemma jsSetProp_ok_ne_undef {t : Json} {k : String} {v r : Json}
    (h : jsSetProp t k v = .ok r) : r ≠ Json.undef := by
  cases t <;> simp [jsSetProp] at h <;> subst h <;> simp
@[simp] lemma exceptBindOk {α β : Type} (a : α) (f : α → Except String β) :
    (Except.ok a >>= f) = f a := rfl

@[simp] lemma exceptBindErr {α β : Type} (e : String) (f : α → Except String β) :
    ((Except.error e : Except String α) >>= f) = Except.error e := rfl

lemma mergeResults_ok_shape {kres dres pres : HttpResponse} {m : Json}
    (hk : kres.json ≠ some Json.undef) (hd : dres.json ≠ some Json.undef)
    (h : mergeResults kres dres pres = .ok m) :
    isResultBody m := by
  unfold mergeResults at h
  cases hk1 : processResponse kres "Kundli" with
  | error e => rw [hk1] at h; simp at h
  | ok kj =>
    have hkj : kj ≠ Json.undef := by
      intro hu; exact hk (hu ▸ processResponse_ok_inv hk1)
    rw [hk1] at h; rw [exceptBindOk] at h
    cases hd1 : processResponse dres "Dasha" with
    | error e => rw [hd1] at h; simp at h
    | ok dj =>
      have hdj : dj ≠ Json.undef := by
        intro hu; exact hd (hu ▸ processResponse_ok_inv hd1)
      rw [hd1] at h; rw [exceptBindOk] at h
      cases hp1 : processResponse pres "Planet Position" with
      | error e => rw [hp1] at h; simp at h
      | ok pj =>
        rw [hp1] at h; rw [exceptBindOk] at h
        cases hr1 : jsRead pj "data" with
        | error e => rw [hr1] at h; simp at h
        | ok pd =>
          rw [hr1] at h; rw [exceptBindOk] at h
          by_cases ht : jsTruthy pd = true
          · rw [if_pos ht] at h
            cases hr2 : jsRead kj "data" with
            | error e => rw [hr2] at h; simp at h
            | ok kd =>
              rw [hr2] at h; rw [exceptBindOk] at h
              cases hr3 : jsRead pd "ascendant" with
              | error e => rw [hr3] at h; simp at h
              | ok asc =>
                rw [hr3] at h; rw [exceptBindOk] at h
                cases hs1 : jsSetProp kd "ascendant" asc with
                | error e => rw [hs1] at h; simp at h
                | ok kd1 =>
                  rw [hs1] at h; rw [exceptBindOk] at h
                  cases hr4 : jsRead pd "planets" with
                  | error e => rw [hr4] at h; simp at h
                  | ok planets =>
                    rw [hr4] at h; rw [exceptBindOk] at h
                    cases hs2 : jsSetProp kd1 "planet_positions" planets with
                    | error e => rw [hs2] at h; simp at h
                    | ok kd2 =>
                      rw [hs2] at h; rw [exceptBindOk] at h
                      cases hs3 : jsSetProp kj "data" kd2 with
                      | error e => rw [hs3] at h; simp at h
                      | ok kj1 =>
                        rw [hs3] at h; rw [exceptBindOk] at h
                        simp only [pure, Except.pure] at h
                        injection h with h
                        exact ⟨kj1, dj, h.symm, jsSetProp_ok_ne_undef hs3, hdj⟩
          · rw [if_neg ht] at h
            simp only [pure, Except.pure] at h
            injection h with h
            exact ⟨kj, dj, h.symm, hkj, hdj⟩
lemma isResultBody_not_error {j : Json} (h : isResultBody j) : ¬ isErrorBody j := by
  rcases h with ⟨kD, dD, rfl, -, -⟩
  rintro ⟨m, hm⟩
  simp at hm

lemma getAccessToken_ok_of_exch_ok (cache : CachedToken) (now : Int)
    {exch : TokenExchange} (hex : exch.ok = true) :
    ∃ t c b, getAccessToken cache now exch = (.ok t, c, b) := by
  unfold getAccessToken
  split
  · exact ⟨_, _, _, rfl⟩
  · exact ⟨_, _, _, rfl⟩

/-- Claim C1: for every inbound request (over any environment, event, cache
state, clock, exchange outcome and fetch outcomes whose parsed bodies are
values `JSON.parse` can produce), the handler's response has a status code in
{200, 400, 500} and a body that is either the result object
`{kundliData, dashaData}` (both fields defined) or an object with the single
string field `error` — never both shapes, never neither. -/
theorem handler_response_envelope (env : Env) (ev : Event) (cache : CachedToken)
    (now : Int) (exch : TokenExchange) (kf df pf : FetchOutcome)
    (hk : respWF kf = true) (hd : respWF df = true) (hp : respWF pf = true) :
    envelopeOK (handler env ev cache now exch kf df pf) := by
  unfold handler
  split
  · exact envelopeOK_errBody (Or.inr rfl) _ _ _ _ _
  split
  · exact envelopeOK_errBody (Or.inl rfl) _ _ _ _ _
  · split
    · exact envelopeOK_errBody (Or.inr rfl) _ _ _ _ _
    · split
      · exact envelopeOK_errBody (Or.inr rfl) _ _ _ _ _
      · exact envelopeOK_errBody (Or.inr rfl) _ _ _ _ _
      · exact envelopeOK_errBody (Or.inr rfl) _ _ _ _ _
      · rename_i kres dres pres
        split
        · exact envelopeOK_errBody (Or.inr rfl) _ _ _ _ _
        · rename_i merged hmerge
          have hshape : isResultBody merged :=
            mergeResults_ok_shape (respWF_ok hk) (respWF_ok hd) hmerge
          exact ⟨Or.inl rfl, Or.inl ⟨hshape, isResultBody_not_error hshape⟩⟩

/-- Claim C1 witness: concrete instance (all three endpoints succeed with
object payloads; warm cache). -/
theorem handler_response_envelope_witness :
    envelopeOK (handler ⟨some "id", some "secret"⟩ ⟨some "coordinates=1,2"⟩
      ⟨some "tok", 10000000⟩ 0 ⟨true, "t", 3600, Json.null⟩
      (.ok ⟨true, 200, "", some (Json.obj [("data", Json.obj [("foo", Json.num 1)])])⟩)
      (.ok ⟨true, 200, "", some (Json.obj [("data", Json.obj [("bar", Json.num 2)])])⟩)
      (.ok ⟨true, 200, "", some (Json.obj [])⟩)) :=
  handler_response_envelope _ _ _ _ _ _ _ _ rfl rfl rfl

/-! ## Claim C2: cache hit performs no exchange call -/

/-- Claim C2: if a cached token exists (truthy) and its stored expiry is more
than 300 seconds (300000 ms) later than the current time, `getAccessToken`
returns the cached value, leaves the cache unchanged, and performs no
token-exchange network call. -/
theorem getAccessToken_cache_hit (cache : CachedToken) (now : Int)
    (exch : TokenExchange) (t : String)
    (ht : cache.accessToken = some t) (hne : t ≠ "")
    (hexp : cache.expiresAt > now + 300 * 1000) :
    getAccessToken cache now exch = (.ok t, cache, false) := by
  unfold getAccessToken
  rw [if_pos]
  · rw [ht]
    rfl
  · refine ⟨?_, hexp⟩
    rw [ht]
    simp [jsTruthyOptStr, hne]

/-- Claim C2 witness: a token expiring at 10000000 ms with the clock at 0. -/
theorem getAccessToken_cache_hit_witness :
    getAccessToken ⟨some "tok", 10000000⟩ 0 ⟨true, "new", 3600, Json.null⟩
      = (.ok "tok", ⟨some "tok", 10000000⟩, false) :=
  getAccessToken_cache_hit _ 0 _ "tok" rfl (by decide) (by decide)

/-! ## Claim C8: failed token exchange -/

/-- Claim C8 counterexample: on a non-success exchange status the thrown
error's message is the fixed `AUTH_FAIL_MSG`; the provider's error body
(`{error: "invalid_client"}` here) is not wrapped in it — no fragment of the
body reaches the message. (The cache-unchanged half of the claim does hold.) -/
theorem getAccessToken_error_body_not_wrapped_cex :
    getAccessToken ⟨none, 0⟩ 0
        ⟨false, "", 0, Json.obj [("error", Json.str "invalid_client")]⟩
      = (.error AUTH_FAIL_MSG, ⟨none, 0⟩, true)
    ∧ strContains AUTH_FAIL_MSG "invalid_client" = false :=
  ⟨rfl, by decide⟩

/-- Claim C8 as amended: when the cache cannot serve (miss or near expiry) and
the exchange returns a non-success status, `getAccessToken` fails with the
fixed authentication message (the provider's body is only logged, not
wrapped) and the cached token state is exactly what it was before the call. -/
theorem getAccessToken_failure_leaves_cache (cache : CachedToken) (now : Int)
    (exch : TokenExchange)
    (hmiss : ¬(jsTruthyOptStr cache.accessToken = true
               ∧ cache.expiresAt > now + 300 * 1000))
    (hnok : exch.ok = false) :
    getAccessToken cache now exch = (.error AUTH_FAIL_MSG, cache, true) := by
  unfold getAccessToken
  rw [if_neg hmiss, if_neg]
  simp [hnok]

/-- Claim C8 witness: empty cache, failed exchange. -/
theorem getAccessToken_failure_leaves_cache_witness :
    getAccessToken ⟨none, 0⟩ 5 ⟨false, "", 0, Json.null⟩
      = (.error AUTH_FAIL_MSG, ⟨none, 0⟩, true) :=
  getAccessToken_failure_leaves_cache _ 5 _ (by decide) rfl
lemma charsContain_append (a b p : List Char) (h : charsContain b p = true) :
    charsContain (a ++ b) p = true := by
  induction a with
  | nil => simpa using h
  | cons x xs ih =>
    cases p with
    | nil => rfl
    | cons c cs =>
      show (charsStartWith (x :: (xs ++ b)) (c :: cs) || charsContain (xs ++ b) (c :: cs)) = true
      rw [ih]
      simp

lemma strContains_append (a b p : String) (h : strContains b p = true) :
    strContains (a ++ b) p = true := by
  unfold strContains at h ⊢
  rw [String.data_append]
  exact charsContain_append _ _ _ h

lemma handler_requested_urls (env : Env) (cache : CachedToken) (now : Int)
    (exch : TokenExchange) (kf df pf : FetchOutcome) (q : String)
    (hcid : jsTruthyOptStr env.clientId = true)
    (hcs : jsTruthyOptStr env.clientSecret = true)
    (hq : q ≠ "") (hex : exch.ok = true) :
    (handler env ⟨some q⟩ cache now exch kf df pf).requestedUrls
      = [kundliUrl q, dashaUrl q, planetPositionUrl q] := by
  obtain ⟨t, c1, b1, htok⟩ := getAccessToken_ok_of_exch_ok cache now hex
  unfold handler
  rw [if_neg (by simp [hcid, hcs]), if_neg (by simp [jsTruthyOptStr, hq]), htok]
  cases kf with
  | error m => rfl
  | ok kres =>
    cases df with
    | error m => rfl
    | ok dres =>
      cases pf with
      | error m => rfl
      | ok pres =>
        cases hmr : mergeResults kres dres pres <;> simp [hmr]

/-! ## Concrete fixtures shared by counterexamples and witnesses -/

/-- Both secrets present. -/
def cexEnv : Env := ⟨some "id", some "secret"⟩

/-- A warm cache: the token expires at 10000000 ms, far past any margin for a
clock at 0. -/
def warmCache : CachedToken := ⟨some "tok", 10000000⟩

/-- A successful would-be exchange outcome. -/
def exchOkCex : TokenExchange := ⟨true, "t", 3600, Json.null⟩

/-- A settled ok response whose payload is the empty object. -/
def okEmpty : FetchOutcome := .ok ⟨true, 200, "{}", some (Json.obj [])⟩

/-! ## Claim C3: the datetime space is NOT re-encoded to %2B -/

/-- A raw query string whose datetime value contains the corrupted offset:
`HH:MM:SS`, one space, then a two-digit:two-digit offset. -/
def q3cex : String :=
  "datetime=2024-01-15T10:30:00 05:30&coordinates=10.00,76.50&ayanamsa=1"

/-- Claim C3 counterexample: for this raw query string the claim demands the
forwarded string be the input with the space replaced by `%2B`; the code
forwards the input verbatim — every requested URL embeds `q3cex` itself,
still containing the bare-space fragment and containing no `%2B` anywhere. -/
theorem query_space_not_reencoded_cex :
    (handler cexEnv ⟨some q3cex⟩ warmCache 0 exchOkCex
        okEmpty okEmpty okEmpty).requestedUrls
      = [kundliUrl q3cex, dashaUrl q3cex, planetPositionUrl q3cex]
    ∧ strContains (kundliUrl q3cex) "%2B" = false
    ∧ strContains (kundliUrl q3cex) "10:30:00 05:30" = true :=
  ⟨rfl, by decide, by decide⟩

/-- Claim C3 as amended: the v4.0.8 handler performs no replacement at all —
for every accepted raw query string (also those containing the
`HH:MM:SS` space `HH:MM` fragment, witnessed by the space hypothesis), the
forwarded query string is the raw input appended verbatim to each endpoint
base URL, the space still present. -/
theorem handler_query_passthrough (env : Env) (cache : CachedToken) (now : Int)
    (exch : TokenExchange) (kf df pf : FetchOutcome) (q : String)
    (hcid : jsTruthyOptStr env.clientId = true)
    (hcs : jsTruthyOptStr env.clientSecret = true)
    (hq : q ≠ "") (hex : exch.ok = true)
    (hsp : strContains q " " = true) :
    (handler env ⟨some q⟩ cache now exch kf df pf).requestedUrls
      = ["https://api.prokerala.com/v2/astrology/kundli?" ++ q,
         "https://api.prokerala.com/v2/astrology/dasha-periods?" ++ q,
         "https://api.prokerala.com/v2/astrology/natal-planet-position?" ++ q]
    ∧ strContains (kundliUrl q) " " = true :=
  ⟨handler_requested_urls env cache now exch kf df pf q hcid hcs hq hex,
   strContains_append _ _ _ hsp⟩

/-- Claim C3 witness: the pass-through at the concrete corrupted query. -/
theorem handler_query_passthrough_witness :
    (handler cexEnv ⟨some q3cex⟩ warmCache 0 exchOkCex
        okEmpty okEmpty okEmpty).requestedUrls
      = ["https://api.prokerala.com/v2/astrology/kundli?" ++ q3cex,
         "https://api.prokerala.com/v2/astrology/dasha-periods?" ++ q3cex,
         "https://api.prokerala.com/v2/astrology/natal-planet-position?" ++ q3cex]
    ∧ strContains (kundliUrl q3cex) " " = true :=
  handler_query_passthrough cexEnv warmCache 0 exchOkCex okEmpty okEmpty okEmpty
    q3cex rfl rfl (by decide) rfl (by decide)

/-! ## Claim C9: extra parameters are not dropped -/

/-- A raw query carrying the three required parameters plus one extra. -/
def q9cex : String := "datetime=d&coordinates=c&ayanamsa=1&extra=9"

/-- Claim C9 counterexample: the claim demands the forwarded query contain
exactly `datetime`, `coordinates`, `ayanamsa` with everything else dropped;
the code forwards `extra=9` too (the whole raw string, verbatim). -/
theorem extra_params_not_dropped_cex :
    (handler cexEnv ⟨some q9cex⟩ warmCache 0 exchOkCex
        okEmpty okEmpty okEmpty).requestedUrls
      = [kundliUrl q9cex, dashaUrl q9cex, planetPositionUrl q9cex]
    ∧ strContains (kundliUrl q9cex) "extra=9" = true :=
  ⟨rfl, by decide⟩

/-- Claim C9 as amended: no re-serialization happens — every fragment of the
raw query string (in particular every incoming parameter) occurs verbatim in
each of the three forwarded URLs; nothing is dropped or reordered. -/
theorem handler_forwards_every_fragment (env : Env) (cache : CachedToken)
    (now : Int) (exch : TokenExchange) (kf df pf : FetchOutcome)
    (q pat : String)
    (hcid : jsTruthyOptStr env.clientId = true)
    (hcs : jsTruthyOptStr env.clientSecret = true)
    (hq : q ≠ "") (hex : exch.ok = true)
    (hpat : strContains q pat = true) :
    ∀ u ∈ (handler env ⟨some q⟩ cache now exch kf df pf).requestedUrls,
      strContains u pat = true := by
  intro u hu
  rw [handler_requested_urls env cache now exch kf df pf q hcid hcs hq hex] at hu
  simp only [List.mem_cons, List.not_mem_nil, or_false] at hu
  rcases hu with rfl | rfl | rfl <;> exact strContains_append _ _ _ hpat

/-- Claim C9 witness: the fragment `extra=9` of the concrete query appears in
the forwarded kundli URL (a member of the requested URLs). -/
theorem handler_forwards_every_fragment_witness :
    strContains (kundliUrl q9cex) "extra=9" = true :=
  handler_forwards_every_fragment cexEnv warmCache 0 exchOkCex
    okEmpty okEmpty okEmpty q9cex "extra=9" rfl rfl (by decide) rfl (by decide)
    (kundliUrl q9cex) (by decide)

/-! ## Claim C4: only an absent/empty query string is rejected -/

/-- Claim C4 counterexample: a nonempty raw query missing `datetime` and
`ayanamsa` is not rejected — no ValidationError, no 400: the handler proceeds
to the network (token exchange would be consulted, the three fetches are
issued) and returns 200. -/
theorem missing_keys_not_validated_cex :
    (handler cexEnv ⟨some "coordinates=1,2"⟩ warmCache 0 exchOkCex
        okEmpty okEmpty okEmpty).statusCode = 200
    ∧ (handler cexEnv ⟨some "coordinates=1,2"⟩ warmCache 0 exchOkCex
        okEmpty okEmpty okEmpty).fetchCalled = true :=
  ⟨rfl, rfl⟩

/-- Claim C4 as amended: the only query validation is JS truthiness of the
whole raw query string (`if (!queryString)`): when `event.rawQuery` is absent
or empty the handler returns 400 with the generic message
"Missing required query parameters." and makes no network call (neither the
token exchange nor any fetch); no per-key check of `datetime`, `coordinates`,
`ayanamsa` exists. -/
theorem handler_rejects_only_absent_query (env : Env) (ev : Event)
    (cache : CachedToken) (now : Int) (exch : TokenExchange)
    (kf df pf : FetchOutcome)
    (hcid : jsTruthyOptStr env.clientId = true)
    (hcs : jsTruthyOptStr env.clientSecret = true)
    (hq : jsTruthyOptStr ev.rawQuery = false) :
    handler env ev cache now exch kf df pf
      = ⟨400, errBody "Missing required query parameters.", false, false, [], cache⟩ := by
  unfold handler
  rw [if_neg (by simp [hcid, hcs]), if_pos hq]

/-- Claim C4 witness: an empty raw query is rejected with 400 and no call. -/
theorem handler_rejects_only_absent_query_witness :
    handler cexEnv ⟨some ""⟩ warmCache 0 exchOkCex okEmpty okEmpty okEmpty
      = ⟨400, errBody "Missing required query parameters.", false, false, [],
         warmCache⟩ :=
  handler_rejects_only_absent_query cexEnv ⟨some ""⟩ warmCache 0 exchOkCex
    okEmpty okEmpty okEmpty rfl rfl rfl

/-- Claim C5 as amended: if any upstream result is non-ok, the merge fails
(no failed payload is folded) and the first non-ok endpoint in declaration
order (kundli, then dasha, then planet-position) determines the error,
provided the earlier-declared successful responses parse; the error message
is the upstream `errors[0].detail` when the failing body parses as JSON with
a truthy detail — in that case it does NOT carry the endpoint's name — and a
synthesized message naming the endpoint (and the status, for unparseable
bodies) otherwise. -/
theorem mergeResults_first_failure_wins (kres dres pres : HttpResponse) :
    (kres.ok = false →
      mergeResults kres dres pres = .error (upstreamFailMsg kres "Kundli"))
    ∧ (∀ kj, kres.ok = true → kres.json = some kj → dres.ok = false →
      mergeResults kres dres pres = .error (upstreamFailMsg dres "Dasha"))
    ∧ (∀ kj dj, kres.ok = true → kres.json = some kj → dres.ok = true →
      dres.json = some dj → pres.ok = false →
      mergeResults kres dres pres = .error (upstreamFailMsg pres "Planet Position")) := by
  refine ⟨?_, ?_, ?_⟩
  · intro hk
    unfold mergeResults
    rw [processResponse_err_of _ _ hk]
    rfl
  · intro kj hko hkj hd
    unfold mergeResults
    rw [processResponse_ok_of _ _ _ hko hkj, exceptBindOk,
        processResponse_err_of _ _ hd]
    rfl
  · intro kj dj hko hkj hdo hdj hp
    unfold mergeResults
    rw [processResponse_ok_of _ _ _ hko hkj, exceptBindOk,
        processResponse_ok_of _ _ _ hdo hdj, exceptBindOk,
        processResponse_err_of _ _ hp]
    rfl

/-- Claim C6: for the three successful payloads of the claim (with any
planets collection `ps`), the merge grafts `ascendant` and renames `planets`
to `planet_positions` inside `kundliData.data`, keeps `dashaData` unmodified
— and (second conjunct) an existing `ascendant` key of the same name is
overwritten in place. -/
theorem mergeResults_grafts_planet_payload (ps : Json) :
    mergeResults
        ⟨true, 200, "", some (Json.obj [("data", Json.obj [("foo", Json.num 1)])])⟩
        ⟨true, 200, "", some (Json.obj [("data", Json.obj [("bar", Json.num 2)])])⟩
        ⟨true, 200, "", some (Json.obj [("data", Json.obj
            [("ascendant", Json.str "Leo"), ("planets", ps)])])⟩
      = .ok (Json.obj
          [("kundliData", Json.obj [("data", Json.obj
              [("foo", Json.num 1), ("ascendant", Json.str "Leo"),
               ("planet_positions", ps)])]),
           ("dashaData", Json.obj [("data", Json.obj [("bar", Json.num 2)])])])
    ∧ mergeResults
        ⟨true, 200, "", some (Json.obj [("data", Json.obj
            [("ascendant", Json.str "Old"), ("foo", Json.num 1)])])⟩
        ⟨true, 200, "", some (Json.obj [("data", Json.obj [("bar", Json.num 2)])])⟩
        ⟨true, 200, "", some (Json.obj [("data", Json.obj
            [("ascendant", Json.str "Leo"), ("planets", ps)])])⟩
      = .ok (Json.obj
          [("kundliData", Json.obj [("data", Json.obj
              [("ascendant", Json.str "Leo"), ("foo", Json.num 1),
               ("planet_positions", ps)])]),
           ("dashaData", Json.obj [("data", Json.obj [("bar", Json.num 2)])])]) :=
  ⟨rfl, rfl⟩

/-- The handler's behavior once credentials, query and token have been
obtained and all three fetches settled: merge and wrap. -/
lemma handler_merge_path (env : Env) (ev : Event) (cache : CachedToken)
    (now : Int) (exch : TokenExchange) (kres dres pres : HttpResponse)
    (t : String) (c1 : CachedToken) (b1 : Bool)
    (hcid : jsTruthyOptStr env.clientId = true)
    (hcs : jsTruthyOptStr env.clientSecret = true)
    (hq : jsTruthyOptStr ev.rawQuery = true)
    (htok : getAccessToken cache now exch = (.ok t, c1, b1)) :
    handler env ev cache now exch (.ok kres) (.ok dres) (.ok pres)
      = (match mergeResults kres dres pres with
         | .error m => ⟨500, errBody m, b1, true,
             [kundliUrl (ev.rawQuery.getD ""), dashaUrl (ev.rawQuery.getD ""),
              planetPositionUrl (ev.rawQuery.getD "")], c1⟩
         | .ok merged => ⟨200, merged, b1, true,
             [kundliUrl (ev.rawQuery.getD ""), dashaUrl (ev.rawQuery.getD ""),
              planetPositionUrl (ev.rawQuery.getD "")], c1⟩) := by
  unfold handler
  rw [if_neg (by simp [hcid, hcs]), if_neg (by simp [hq]), htok]

/-- Claim C5 counterexample: kundli fails with a parsed upstream detail while
dasha and planet-position succeed. The merge fails with exactly that detail —
a message that does not carry the endpoint name "Kundli" anywhere, against
the claim's "UpstreamError carrying that endpoint's name and message". -/
theorem merge_error_lacks_endpoint_name_cex :
    mergeResults
        ⟨false, 400, "e", some (Json.obj [("errors", Json.arr
            [Json.obj [("detail", Json.str "Invalid datetime value")]])])⟩
        ⟨true, 200, "{}", some (Json.obj [])⟩
        ⟨true, 200, "{}", some (Json.obj [])⟩
      = .error "Invalid datetime value"
    ∧ strContains "Invalid datetime value" "Kundli" = false :=
  ⟨rfl, by decide⟩

/-- Claim C5 witness: a kundli response with an unparseable error body makes
the whole merge fail with the kundli synthesized message, dasha and
planet-position notwithstanding. -/
theorem mergeResults_first_failure_wins_witness :
    mergeResults ⟨false, 502, "Bad Gateway", none⟩
        ⟨true, 200, "{}", some (Json.obj [])⟩
        ⟨true, 200, "{}", some (Json.obj [])⟩
      = .error (upstreamFailMsg ⟨false, 502, "Bad Gateway", none⟩ "Kundli") :=
  (mergeResults_first_failure_wins ⟨false, 502, "Bad Gateway", none⟩
      ⟨true, 200, "{}", some (Json.obj [])⟩
      ⟨true, 200, "{}", some (Json.obj [])⟩).1 rfl

/-! ## Claim C7: a transport error rejects the whole fan-out -/

/-- Claim C7 counterexample: kundli settles with an HTTP failure carrying an
upstream detail, dasha's fetch fails at transport level, planet-position
succeeds. `Promise.all` rejects with the transport error: the request fails
as a whole with status 500 and the dasha transport message — no per-endpoint
`ok=false` results are produced, and the earlier-declared kundli failure is
not the one surfaced. -/
theorem transport_error_fails_whole_cex :
    (handler cexEnv ⟨some "q"⟩ warmCache 0 exchOkCex
        (.ok ⟨false, 400, "e", some (Json.obj [("errors", Json.arr
            [Json.obj [("detail", Json.str "Kundli upstream detail")]])])⟩)
        (.error "TypeError: fetch failed")
        okEmpty).statusCode = 500
    ∧ (handler cexEnv ⟨some "q"⟩ warmCache 0 exchOkCex
        (.ok ⟨false, 400, "e", some (Json.obj [("errors", Json.arr
            [Json.obj [("detail", Json.str "Kundli upstream detail")]])])⟩)
        (.error "TypeError: fetch failed")
        okEmpty).body = errBody "TypeError: fetch failed" :=
  ⟨rfl, rfl⟩

/-- Claim C7 as amended: the fan-out CAN fail as a whole — when exactly one
of the three fetches rejects at transport level (the others settling as HTTP
responses of any status), `Promise.all` rejects and the handler returns 500
whose error body is that transport message; no per-endpoint result collection
takes place. Only HTTP-level failures (where `fetch` resolves) leave the join
intact and are deferred to sequential response processing. -/
theorem handler_transport_error_rejects_join (env : Env) (ev : Event)
    (cache : CachedToken) (now : Int) (exch : TokenExchange)
    (kf df pf : FetchOutcome) (m : String)
    (hcid : jsTruthyOptStr env.clientId = true)
    (hcs : jsTruthyOptStr env.clientSecret = true)
    (hq : jsTruthyOptStr ev.rawQuery = true)
    (hex : exch.ok = true)
    (hone : (kf = .error m ∧ (∃ r, df = .ok r) ∧ (∃ r, pf = .ok r))
          ∨ ((∃ r, kf = .ok r) ∧ df = .error m ∧ (∃ r, pf = .ok r))
          ∨ ((∃ r, kf = .ok r) ∧ (∃ r, df = .ok r) ∧ pf = .error m)) :
    (handler env ev cache now exch kf df pf).statusCode = 500
    ∧ (handler env ev cache now exch kf df pf).body = errBody m
    ∧ (handler env ev cache now exch kf df pf).fetchCalled = true := by
  obtain ⟨t, c1, b1, htok⟩ := getAccessToken_ok_of_exch_ok cache now hex
  unfold handler
  rw [if_neg (by simp [hcid, hcs]), if_neg (by simp [hq]), htok]
  rcases hone with ⟨rfl, ⟨r1, rfl⟩, ⟨r2, rfl⟩⟩ | ⟨⟨r0, rfl⟩, rfl, ⟨r2, rfl⟩⟩
    | ⟨⟨r0, rfl⟩, ⟨r1, rfl⟩, rfl⟩ <;> exact ⟨rfl, rfl, rfl⟩

/-- Claim C7 witness: a single planet-position transport failure with the
other two endpoints settled. -/
theorem handler_transport_error_rejects_join_witness :
    (handler cexEnv ⟨some "q"⟩ warmCache 0 exchOkCex okEmpty okEmpty
        (.error "connect ECONNREFUSED")).statusCode = 500
    ∧ (handler cexEnv ⟨some "q"⟩ warmCache 0 exchOkCex okEmpty okEmpty
        (.error "connect ECONNREFUSED")).body = errBody "connect ECONNREFUSED"
    ∧ (handler cexEnv ⟨some "q"⟩ warmCache 0 exchOkCex okEmpty okEmpty
        (.error "connect ECONNREFUSED")).fetchCalled = true :=
  handler_transport_error_rejects_join cexEnv ⟨some "q"⟩ warmCache 0 exchOkCex
    okEmpty okEmpty (.error "connect ECONNREFUSED") "connect ECONNREFUSED"
    rfl rfl rfl rfl
    (Or.inr (Or.inr ⟨⟨_, rfl⟩, ⟨_, rfl⟩, rfl⟩))

/-! ## Claim C10: falsy planet-position `data` skips the graft -/

lemma mergeResults_skip_graft (s1 s2 s3 : Nat) (t1 t2 t3 : String)
    (kj dj pj pd : Json)
    (hpd : jsRead pj "data" = .ok pd) (hfalsy : jsTruthy pd = false) :
    mergeResults ⟨true, s1, t1, some kj⟩ ⟨true, s2, t2, some dj⟩
        ⟨true, s3, t3, some pj⟩
      = .ok (Json.obj [("kundliData", kj), ("dashaData", dj)]) := by
  unfold mergeResults
  rw [processResponse_ok_of _ _ _ rfl rfl, exceptBindOk,
      processResponse_ok_of _ _ _ rfl rfl, exceptBindOk,
      processResponse_ok_of _ _ _ rfl rfl, exceptBindOk,
      hpd, exceptBindOk, if_neg (by simp [hfalsy])]
  rfl

/-- Claim C10: when all three upstream calls succeed but the planet-position
payload's `data` field is absent or otherwise falsy, the graft is skipped
entirely and the handler returns 200 with `kundliData` the unmodified kundli
payload (no `ascendant`, no `planet_positions` added) and `dashaData` the
dasha payload. -/
theorem handler_skips_graft_on_falsy_planet_data (env : Env) (ev : Event)
    (cache : CachedToken) (now : Int) (exch : TokenExchange)
    (t : String) (c1 : CachedToken) (b1 : Bool)
    (s1 s2 s3 : Nat) (t1 t2 t3 : String) (kj dj pj pd : Json)
    (hcid : jsTruthyOptStr env.clientId = true)
    (hcs : jsTruthyOptStr env.clientSecret = true)
    (hq : jsTruthyOptStr ev.rawQuery = true)
    (htok : getAccessToken cache now exch = (.ok t, c1, b1))
    (hpd : jsRead pj "data" = .ok pd) (hfalsy : jsTruthy pd = false) :
    handler env ev cache now exch (.ok ⟨true, s1, t1, some kj⟩)
        (.ok ⟨true, s2, t2, some dj⟩) (.ok ⟨true, s3, t3, some pj⟩)
      = ⟨200, Json.obj [("kundliData", kj), ("dashaData", dj)], b1, true,
         [kundliUrl (ev.rawQuery.getD ""), dashaUrl (ev.rawQuery.getD ""),
          planetPositionUrl (ev.rawQuery.getD "")], c1⟩ := by
  rw [handler_merge_path env ev cache now exch _ _ _ t c1 b1 hcid hcs hq htok,
      mergeResults_skip_graft s1 s2 s3 t1 t2 t3 kj dj pj pd hpd hfalsy]

/-- Claim C10 witness: a planet-position payload `{}` (its `data` read yields
`undefined`, which is falsy) leaves the kundli payload untouched. -/
theorem handler_skips_graft_on_falsy_planet_data_witness :
    handler cexEnv ⟨some "q"⟩ warmCache 0 exchOkCex
        (.ok ⟨true, 200, "k", some (Json.obj [("data", Json.obj [("foo", Json.num 1)])])⟩)
        (.ok ⟨true, 200, "d", some (Json.obj [("data", Json.obj [("bar", Json.num 2)])])⟩)
        (.ok ⟨true, 200, "p", some (Json.obj [])⟩)
      = ⟨200, Json.obj
          [("kundliData", Json.obj [("data", Json.obj [("foo", Json.num 1)])]),
           ("dashaData", Json.obj [("data", Json.obj [("bar", Json.num 2)])])],
         false, true,
         [kundliUrl "q", dashaUrl "q", planetPositionUrl "q"], warmCache⟩ :=
  handler_skips_graft_on_falsy_planet_data cexEnv ⟨some "q"⟩ warmCache 0
    exchOkCex "tok" warmCache false 200 200 200 "k" "d" "p"
    (Json.obj [("data", Json.obj [("foo", Json.num 1)])])
    (Json.obj [("data", Json.obj [("bar", Json.num 2)])])
    (Json.obj []) Json.undef rfl rfl rfl rfl rfl rfl
